import Mathlib

/-!
Authentication token builders of the neo4j Go driver.

Embedding of `neo4j/auth_tokens.go`: the five builders `NoAuth`, `BasicAuth`,
`KerberosAuth`, `BearerAuth` and `CustomAuth`, each of which fills a Go
`map[string]any` and wraps it in an `AuthToken`.

A Go map is embedded in two layers. `Table V` is an allocated map: its entries,
at most one per key, kept in the order the keys were first written (Go itself
fixes no order; the properties C1 to C9 below are stated through reads, key
membership and length only). `GoMap V` is a Go value
of type `map[string]V`: either `nil` or a reference to a table.
-/

set_option autoImplicit false

namespace Neo4j

/-- Allocated Go map with string keys. -/
structure Table (V : Type) where
  entries : List (String × V)
  deriving DecidableEq, Repr

namespace Table

variable {V : Type}

/-- Lookup on a list of entries. -/
def lookup : List (String × V) → String → Option V
  | [], _ => none
  | (k', v) :: rest, k => if k' = k then some v else lookup rest k

/-- Write on a list of entries: replaces the value at an existing key, adds
the entry when the key is new. -/
def update : List (String × V) → String → V → List (String × V)
  | [], k, v => [(k, v)]
  | (k', v') :: rest, k, v =>
      if k' = k then (k, v) :: rest else (k', v') :: update rest k v

/-- Go `v, ok := t[k]`: `some v` when the key is present, `none` otherwise. -/
def get (t : Table V) (k : String) : Option V := lookup t.entries k

/-- Go `t[k] = v`. -/
def set (t : Table V) (k : String) (v : V) : Table V := ⟨update t.entries k v⟩

/-- Go `len(t)`. -/
def len (t : Table V) : Nat := t.entries.length

/-- The keys of the table. -/
def keys (t : Table V) : List String := t.entries.map Prod.fst

end Table

/-- Go value of type `map[string]V`: the nil map or a reference to a table. -/
inductive GoMap (V : Type) where
  | nil : GoMap V
  | ref (t : Table V) : GoMap V
  deriving DecidableEq, Repr

namespace GoMap

variable {V : Type}

/-- Go `len(m)`; the nil map has length 0. -/
def len : GoMap V → Nat
  | nil => 0
  | ref t => t.len

/-- Go `v, ok := m[k]`; reading the nil map finds nothing. -/
def get : GoMap V → String → Option V
  | nil, _ => none
  | ref t, k => t.get k

/-- The keys of the map; the nil map has none. -/
def keys : GoMap V → List String
  | nil => []
  | ref t => t.keys

/-- Go `_, ok := m[k]`. -/
def hasKey (m : GoMap V) (k : String) : Bool := (m.get k).isSome

end GoMap

/-- The dynamic values the builders store in a token (Go `any`): a string, or
the caller's parameters map, whose own values have the arbitrary type `α`. -/
inductive Value (α : Type) where
  | str (s : String) : Value α
  | map (m : GoMap α) : Value α
  deriving DecidableEq, Repr

/-- Modelled from the spec: the struct `auth.Token` of package `internal/auth`,
which `AuthToken` aliases, is not among the sources. The composite literals
of the builders show its one field `Tokens`, a `map[string]any`; this is the
labeled record of the spec. -/
structure AuthToken (α : Type) where
  Tokens : GoMap (Value α)
  deriving DecidableEq, Repr

def keyScheme : String := "scheme"
def schemeNone : String := "none"
def schemeBasic : String := "basic"
def schemeKerberos : String := "kerberos"
def schemeBearer : String := "bearer"
def keyPrincipal : String := "principal"
def keyCredentials : String := "credentials"
def keyRealm : String := "realm"

variable {α : Type}

/-- NoAuth generates an empty authentication token. -/
def NoAuth : AuthToken α :=
  { Tokens := .ref ⟨[(keyScheme, .str schemeNone)]⟩ }

/-- BasicAuth generates a basic authentication token with provided username,
password and realm. -/
def BasicAuth (username : String) (password : String) (realm : String) : AuthToken α :=
  let tokens : Table (Value α) :=
    ⟨[(keyScheme, .str schemeBasic),
      (keyPrincipal, .str username),
      (keyCredentials, .str password)]⟩
  let tokens := if realm ≠ "" then tokens.set keyRealm (.str realm) else tokens
  { Tokens := .ref tokens }

/-- KerberosAuth generates a kerberos authentication token with provided
base-64 encoded kerberos ticket. -/
def KerberosAuth (ticket : String) : AuthToken α :=
  let token : AuthToken α :=
    { Tokens := .ref
        ⟨[(keyScheme, .str schemeKerberos),
          (keyPrincipal, .str ""),
          (keyCredentials, .str ticket)]⟩ }
  token

/-- BearerAuth generates an authentication token with the provided base-64
value generated by a Single Sign-On provider. -/
def BearerAuth (token : String) : AuthToken α :=
  let result : AuthToken α :=
    { Tokens := .ref
        ⟨[(keyScheme, .str schemeBearer),
          (keyCredentials, .str token)]⟩ }
  result

/-- CustomAuth generates a custom authentication token with provided
parameters. -/
def CustomAuth (scheme : String) (username : String) (password : String) (realm : String)
    (parameters : GoMap α) : AuthToken α :=
  let tokens : Table (Value α) :=
    ⟨[(keyScheme, .str scheme),
      (keyPrincipal, .str username)]⟩
  let tokens := if password ≠ "" then tokens.set keyCredentials (.str password) else tokens
  let tokens := if realm ≠ "" then tokens.set keyRealm (.str realm) else tokens
  let tokens := if parameters.len > 0 then tokens.set "parameters" (.map parameters) else tokens
  { Tokens := .ref tokens }

/-- Two tokens hold the same entries: every key reads the same in both. -/
def AuthToken.SameEntries (a b : AuthToken α) : Prop :=
  ∀ k : String, a.Tokens.get k = b.Tokens.get k

/-! Reading the builders. -/

/-- The table `BasicAuth` returns, entry by entry. -/
theorem BasicAuth_tokens (username password realm : String) :
    (BasicAuth username password realm : AuthToken α).Tokens =
      .ref ⟨[("scheme", .str "basic"), ("principal", .str username),
             ("credentials", .str password)]
            ++ (if realm = "" then [] else [("realm", .str realm)])⟩ := by
  by_cases h : realm = "" <;>
    simp [BasicAuth, Table.set, Table.update, keyScheme, schemeBasic, keyPrincipal,
      keyCredentials, keyRealm, h]

/-- The table `CustomAuth` returns, entry by entry. -/
theorem CustomAuth_tokens (scheme username password realm : String) (parameters : GoMap α) :
    (CustomAuth scheme username password realm parameters).Tokens =
      .ref ⟨[("scheme", .str scheme), ("principal", .str username)]
            ++ (if password = "" then [] else [("credentials", .str password)])
            ++ (if realm = "" then [] else [("realm", .str realm)])
            ++ (if parameters.len = 0 then [] else [("parameters", .map parameters)])⟩ := by
  rcases Nat.eq_zero_or_pos parameters.len with h3 | h3 <;>
  by_cases h : realm = "" <;> by_cases h2 : password = "" <;>
    simp [CustomAuth, Table.set, Table.update, keyScheme, keyPrincipal,
      keyCredentials, keyRealm, h, h2, h3, Nat.pos_iff_ne_zero.mp]

/-- A key is found by a read of the map exactly when it is one of its keys. -/
theorem Table.lookup_isSome_iff {V : Type} (es : List (String × V)) (k : String) :
    (Table.lookup es k).isSome = true ↔ k ∈ es.map Prod.fst := by
  induction es with
  | nil => simp [Table.lookup]
  | cons e rest ih =>
    obtain ⟨k', v⟩ := e
    by_cases h : k' = k
    · simp [Table.lookup, h]
    · have h' : ¬ k = k' := fun e => h e.symm
      simp [Table.lookup, h, h', ih]

/-- The keys of a map are the keys a read finds. -/
theorem GoMap.hasKey_iff_mem_keys {V : Type} (m : GoMap V) (k : String) :
    m.hasKey k = true ↔ k ∈ m.keys := by
  cases m with
  | nil => simp [GoMap.hasKey, GoMap.get, GoMap.keys]
  | ref t => simpa [GoMap.hasKey, GoMap.get, GoMap.keys, Table.get, Table.keys]
      using Table.lookup_isSome_iff t.entries k

/-! The claims. -/

/-- C1: the token of every builder contains the key "scheme"; it reads "none"
for NoAuth, "basic" for BasicAuth, "kerberos" for KerberosAuth, "bearer" for
BearerAuth and the scheme argument for CustomAuth, where the key is present
also when the scheme argument is the empty string. -/
theorem C1_scheme_present (username password realm ticket token : String)
    (scheme cUsername cPassword cRealm : String) (parameters : GoMap α) :
    (NoAuth : AuthToken α).Tokens.get "scheme" = some (.str "none") ∧
    (BasicAuth username password realm : AuthToken α).Tokens.get "scheme"
      = some (.str "basic") ∧
    (KerberosAuth ticket : AuthToken α).Tokens.get "scheme" = some (.str "kerberos") ∧
    (BearerAuth token : AuthToken α).Tokens.get "scheme" = some (.str "bearer") ∧
    (CustomAuth scheme cUsername cPassword cRealm parameters).Tokens.get "scheme"
      = some (.str scheme) ∧
    (CustomAuth "" cUsername cPassword cRealm parameters).Tokens.hasKey "scheme" = true := by
  refine ⟨?_, ?_, ?_, ?_, ?_, ?_⟩
  · simp [NoAuth, GoMap.get, Table.get, Table.lookup, keyScheme, schemeNone]
  · simp [BasicAuth_tokens, GoMap.get, Table.get, Table.lookup]
  · simp [KerberosAuth, GoMap.get, Table.get, Table.lookup, keyScheme, schemeKerberos]
  · simp [BearerAuth, GoMap.get, Table.get, Table.lookup, keyScheme, schemeBearer]
  · simp [CustomAuth_tokens, GoMap.get, Table.get, Table.lookup]
  · simp [CustomAuth_tokens, GoMap.hasKey, GoMap.get, Table.get, Table.lookup]

/-- C2: the top-level keys of the token of every builder are among "scheme",
"principal", "credentials", "realm" and "parameters"; CustomAuth stores its
parameters map whole under the one key "parameters", or not at all, and the
entries of that map never become top-level keys: a read of the token at any
other key gives what it gives for any other parameters map, and the top-level
keys are exactly "scheme", "principal", "credentials" when the password is
non-empty, "realm" when the realm is non-empty and "parameters" when the map
has an entry, whatever the names of the entries of the map. -/
theorem C2_keys_within_known (username password realm ticket token : String)
    (scheme cUsername cPassword cRealm : String) (parameters parameters' : GoMap α) :
    (NoAuth : AuthToken α).Tokens.keys
      ⊆ ["scheme", "principal", "credentials", "realm", "parameters"] ∧
    (BasicAuth username password realm : AuthToken α).Tokens.keys
      ⊆ ["scheme", "principal", "credentials", "realm", "parameters"] ∧
    (KerberosAuth ticket : AuthToken α).Tokens.keys
      ⊆ ["scheme", "principal", "credentials", "realm", "parameters"] ∧
    (BearerAuth token : AuthToken α).Tokens.keys
      ⊆ ["scheme", "principal", "credentials", "realm", "parameters"] ∧
    (CustomAuth scheme cUsername cPassword cRealm parameters).Tokens.keys
      ⊆ ["scheme", "principal", "credentials", "realm", "parameters"] ∧
    (CustomAuth scheme cUsername cPassword cRealm parameters).Tokens.get "parameters"
      = (if parameters.len = 0 then none else some (.map parameters)) ∧
    (∀ k : String,
      (CustomAuth scheme cUsername cPassword cRealm parameters).Tokens.get k
        = (if k = "parameters" then
            (if parameters.len = 0 then none else some (.map parameters))
          else (CustomAuth scheme cUsername cPassword cRealm parameters').Tokens.get k)) ∧
    (∀ k : String,
      k ∈ (CustomAuth scheme cUsername cPassword cRealm parameters).Tokens.keys
        ↔ (k = "scheme" ∨ k = "principal" ∨ (k = "credentials" ∧ cPassword ≠ "")
            ∨ (k = "realm" ∧ cRealm ≠ "") ∨ (k = "parameters" ∧ 0 < parameters.len))) := by
  refine ⟨?_, ?_, ?_, ?_, ?_, ?_, ?_, ?_⟩
  · simp [NoAuth, GoMap.keys, Table.keys, keyScheme]
  · simp only [BasicAuth_tokens]
    split_ifs <;> simp [GoMap.keys, Table.keys]
  · simp [KerberosAuth, GoMap.keys, Table.keys, keyScheme, keyPrincipal, keyCredentials]
  · simp [BearerAuth, GoMap.keys, Table.keys, keyScheme, keyCredentials]
  · simp only [CustomAuth_tokens]
    split_ifs <;> simp [GoMap.keys, Table.keys]
  · simp only [CustomAuth_tokens]
    split_ifs <;> simp [GoMap.get, Table.get, Table.lookup]
  · intro k
    simp only [CustomAuth_tokens]
    by_cases hk : k = "parameters"
    · subst hk
      split_ifs <;> simp_all [GoMap.get, Table.get, Table.lookup]
    · have hk' : ¬ "parameters" = k := fun e => hk e.symm
      split_ifs <;> simp_all [GoMap.get, Table.get, Table.lookup]
  · intro k
    simp only [CustomAuth_tokens]
    split_ifs <;> simp_all [GoMap.keys, Table.keys, Nat.pos_iff_ne_zero]

/-- C3: BasicAuth maps "scheme" to "basic", "principal" to the username and
"credentials" to the password, both present also when empty; it has the key
"realm" exactly when the realm is non-empty, then mapped to the realm; it has
no other keys. -/
theorem C3_BasicAuth_entries (username password realm : String) :
    (BasicAuth username password realm : AuthToken α).Tokens.get "scheme"
      = some (.str "basic") ∧
    (BasicAuth username password realm : AuthToken α).Tokens.get "principal"
      = some (.str username) ∧
    (BasicAuth username password realm : AuthToken α).Tokens.get "credentials"
      = some (.str password) ∧
    ((BasicAuth username password realm : AuthToken α).Tokens.hasKey "realm" = true
      ↔ realm ≠ "") ∧
    (BasicAuth username password realm : AuthToken α).Tokens.get "realm"
      = (if realm = "" then none else some (.str realm)) ∧
    (BasicAuth username password realm : AuthToken α).Tokens.keys
      ⊆ ["scheme", "principal", "credentials", "realm"] ∧
    (BasicAuth username password realm : AuthToken α).Tokens.len
      = (if realm = "" then 3 else 4) := by
  simp only [BasicAuth_tokens]
  refine ⟨?_, ?_, ?_, ?_, ?_, ?_, ?_⟩ <;> split_ifs <;>
    simp_all [GoMap.get, GoMap.hasKey, GoMap.keys, GoMap.len, Table.get, Table.lookup,
      Table.keys, Table.len]

/-- C4: CustomAuth always maps "scheme" to the scheme and "principal" to the
username; it has "credentials" exactly when the password is non-empty, "realm"
exactly when the realm is non-empty and "parameters" exactly when the
parameters map has an entry, each then mapped to its argument; it has no other
keys. -/
theorem C4_CustomAuth_entries (scheme username password realm : String)
    (parameters : GoMap α) :
    (CustomAuth scheme username password realm parameters).Tokens.get "scheme"
      = some (.str scheme) ∧
    (CustomAuth scheme username password realm parameters).Tokens.get "principal"
      = some (.str username) ∧
    ((CustomAuth scheme username password realm parameters).Tokens.hasKey "credentials" = true
      ↔ password ≠ "") ∧
    (CustomAuth scheme username password realm parameters).Tokens.get "credentials"
      = (if password = "" then none else some (.str password)) ∧
    ((CustomAuth scheme username password realm parameters).Tokens.hasKey "realm" = true
      ↔ realm ≠ "") ∧
    (CustomAuth scheme username password realm parameters).Tokens.get "realm"
      = (if realm = "" then none else some (.str realm)) ∧
    ((CustomAuth scheme username password realm parameters).Tokens.hasKey "parameters" = true
      ↔ 0 < parameters.len) ∧
    (CustomAuth scheme username password realm parameters).Tokens.get "parameters"
      = (if parameters.len = 0 then none else some (.map parameters)) ∧
    (CustomAuth scheme username password realm parameters).Tokens.keys
      ⊆ ["scheme", "principal", "credentials", "realm", "parameters"] ∧
    (CustomAuth scheme username password realm parameters).Tokens.len
      = 2 + (if password = "" then 0 else 1) + (if realm = "" then 0 else 1)
          + (if parameters.len = 0 then 0 else 1) := by
  simp only [CustomAuth_tokens]
  refine ⟨?_, ?_, ?_, ?_, ?_, ?_, ?_, ?_, ?_, ?_⟩ <;> split_ifs <;>
    simp_all [GoMap.get, GoMap.hasKey, GoMap.keys, GoMap.len, Table.get, Table.lookup,
      Table.keys, Table.len, Nat.pos_iff_ne_zero]

/-- C5: for every ticket, the empty one included, KerberosAuth returns a token
of exactly three entries: "scheme" mapped to "kerberos", "principal" present
and mapped to the empty string, "credentials" mapped to the ticket. -/
theorem C5_KerberosAuth_entries (ticket : String) :
    (KerberosAuth ticket : AuthToken α).Tokens.len = 3 ∧
    (KerberosAuth ticket : AuthToken α).Tokens.get "scheme" = some (.str "kerberos") ∧
    (KerberosAuth ticket : AuthToken α).Tokens.get "principal" = some (.str "") ∧
    (KerberosAuth ticket : AuthToken α).Tokens.get "credentials" = some (.str ticket) ∧
    (KerberosAuth ticket : AuthToken α).Tokens.keys
      ⊆ ["scheme", "principal", "credentials"] := by
  simp [KerberosAuth, GoMap.get, GoMap.keys, GoMap.len, Table.get, Table.lookup, Table.keys,
    Table.len, keyScheme, schemeKerberos, keyPrincipal, keyCredentials]

/-- C6: for every argument, the empty string included, BearerAuth returns a
token of exactly two entries, "scheme" mapped to "bearer" and "credentials"
mapped to the argument; it has no "principal" and no "realm" key. -/
theorem C6_BearerAuth_entries (token : String) :
    (BearerAuth token : AuthToken α).Tokens.len = 2 ∧
    (BearerAuth token : AuthToken α).Tokens.get "scheme" = some (.str "bearer") ∧
    (BearerAuth token : AuthToken α).Tokens.get "credentials" = some (.str token) ∧
    (BearerAuth token : AuthToken α).Tokens.hasKey "principal" = false ∧
    (BearerAuth token : AuthToken α).Tokens.hasKey "realm" = false ∧
    (BearerAuth token : AuthToken α).Tokens.keys ⊆ ["scheme", "credentials"] := by
  simp [BearerAuth, GoMap.get, GoMap.hasKey, GoMap.keys, GoMap.len, Table.get, Table.lookup,
    Table.keys, Table.len, keyScheme, schemeBearer, keyCredentials]

/-- C7: the only entry of the token of NoAuth is "scheme" mapped to "none"; it
has no principal, no credentials, no realm and no parameters. -/
theorem C7_NoAuth_entries :
    (NoAuth : AuthToken α).Tokens.len = 1 ∧
    (NoAuth : AuthToken α).Tokens.get "scheme" = some (.str "none") ∧
    (NoAuth : AuthToken α).Tokens.keys ⊆ ["scheme"] ∧
    (NoAuth : AuthToken α).Tokens.hasKey "principal" = false ∧
    (NoAuth : AuthToken α).Tokens.hasKey "credentials" = false ∧
    (NoAuth : AuthToken α).Tokens.hasKey "realm" = false ∧
    (NoAuth : AuthToken α).Tokens.hasKey "parameters" = false := by
  simp [NoAuth, GoMap.get, GoMap.hasKey, GoMap.keys, GoMap.len, Table.get, Table.lookup,
    Table.keys, Table.len, keyScheme, schemeNone]

/-- C8, as stated, fails: the key set of the token does depend on the argument
values. BasicAuth with an empty realm has no key "realm", with the realm
"native" it has one; CustomAuth with an empty password has no key
"credentials", with the password "secret" it has one. -/
theorem C8_keys_vary_with_arguments :
    ¬ (∀ k : String,
        k ∈ (BasicAuth "neo4j" "secret" "" : AuthToken Nat).Tokens.keys
          ↔ k ∈ (BasicAuth "neo4j" "secret" "native" : AuthToken Nat).Tokens.keys) ∧
    ¬ (∀ k : String,
        k ∈ (CustomAuth "basic" "neo4j" "" "" .nil : AuthToken Nat).Tokens.keys
          ↔ k ∈ (CustomAuth "basic" "neo4j" "secret" "" .nil : AuthToken Nat).Tokens.keys) := by
  constructor
  · intro h
    exact absurd ((h "realm").mpr (by decide)) (by decide)
  · intro h
    exact absurd ((h "credentials").mpr (by decide)) (by decide)

/-- C8, amended: the key set of the token of KerberosAuth and of BearerAuth is
the same for every argument (NoAuth takes none); that of BasicAuth is the same
for any two calls that agree on whether the realm is empty; that of CustomAuth
is the same for any two calls that agree on whether the password is empty,
whether the realm is empty and whether the parameters map has no entry. -/
theorem C8_keys_depend_on_emptiness_only
    (ticket ticket' token token' : String)
    (username password realm username' password' realm' : String)
    (hrealm : realm = "" ↔ realm' = "")
    (scheme cUsername cPassword cRealm scheme' cUsername' cPassword' cRealm' : String)
    (parameters parameters' : GoMap α)
    (hcPassword : cPassword = "" ↔ cPassword' = "")
    (hcRealm : cRealm = "" ↔ cRealm' = "")
    (hparameters : parameters.len = 0 ↔ parameters'.len = 0) :
    (∀ k : String, k ∈ (KerberosAuth ticket : AuthToken α).Tokens.keys
        ↔ k ∈ (KerberosAuth ticket' : AuthToken α).Tokens.keys) ∧
    (∀ k : String, k ∈ (BearerAuth token : AuthToken α).Tokens.keys
        ↔ k ∈ (BearerAuth token' : AuthToken α).Tokens.keys) ∧
    (∀ k : String, k ∈ (BasicAuth username password realm : AuthToken α).Tokens.keys
        ↔ k ∈ (BasicAuth username' password' realm' : AuthToken α).Tokens.keys) ∧
    (∀ k : String,
        k ∈ (CustomAuth scheme cUsername cPassword cRealm parameters).Tokens.keys
        ↔ k ∈ (CustomAuth scheme' cUsername' cPassword' cRealm' parameters').Tokens.keys) := by
  refine ⟨?_, ?_, ?_, ?_⟩
  · intro k
    simp [KerberosAuth, GoMap.keys, Table.keys]
  · intro k
    simp [BearerAuth, GoMap.keys, Table.keys]
  · intro k
    simp only [BasicAuth_tokens]
    by_cases h : realm = ""
    · have h' : realm' = "" := hrealm.mp h
      simp [h, h', GoMap.keys, Table.keys]
    · have h' : ¬ realm' = "" := fun e => h (hrealm.mpr e)
      simp [h, h', GoMap.keys, Table.keys]
  · intro k
    simp only [CustomAuth_tokens]
    by_cases h1 : cPassword = "" <;> by_cases h2 : cRealm = "" <;>
      by_cases h3 : parameters.len = 0 <;>
      simp_all [GoMap.keys, Table.keys]

/-- C8, amended, at concrete calls: two BasicAuth calls with non-empty
realms, two CustomAuth calls with empty password, non-empty realm and a
parameters map of one entry, all other arguments differing. -/
theorem C8_keys_depend_on_emptiness_only_witness :
    (("native" : String) = "" ↔ ("ldap" : String) = "") ∧
    (("" : String) = "" ↔ ("" : String) = "") ∧
    ((GoMap.ref ⟨[("otp", 1)]⟩ : GoMap Nat).len = 0
      ↔ (GoMap.ref ⟨[("pin", 2)]⟩ : GoMap Nat).len = 0) ∧
    (∀ k : String, k ∈ (KerberosAuth "dGlja2V0" : AuthToken Nat).Tokens.keys
        ↔ k ∈ (KerberosAuth "" : AuthToken Nat).Tokens.keys) ∧
    (∀ k : String, k ∈ (BearerAuth "abc" : AuthToken Nat).Tokens.keys
        ↔ k ∈ (BearerAuth "" : AuthToken Nat).Tokens.keys) ∧
    (∀ k : String, k ∈ (BasicAuth "neo4j" "secret" "native" : AuthToken Nat).Tokens.keys
        ↔ k ∈ (BasicAuth "" "" "ldap" : AuthToken Nat).Tokens.keys) ∧
    (∀ k : String,
        k ∈ (CustomAuth "sso" "neo4j" "" "native" (.ref ⟨[("otp", 1)]⟩)
              : AuthToken Nat).Tokens.keys
        ↔ k ∈ (CustomAuth "" "" "" "ldap" (.ref ⟨[("pin", 2)]⟩) : AuthToken Nat).Tokens.keys) :=
  ⟨by decide, by decide, by decide,
    C8_keys_depend_on_emptiness_only "dGlja2V0" "" "abc" ""
      "neo4j" "secret" "native" "" "" "ldap" (by decide)
      "sso" "neo4j" "" "native" "" "" "" "ldap" (.ref ⟨[("otp", 1)]⟩) (.ref ⟨[("pin", 2)]⟩)
      (by decide) (by decide) (by decide)⟩

/-- C9: with a parameters map of no entry (empty or nil), the token of
CustomAuth with scheme "basic" has the same entries as the token of BasicAuth
for the same username, password and realm exactly when the password is
non-empty; with an empty password BasicAuth keeps "credentials" mapped to the
empty string while CustomAuth omits the key. -/
theorem C9_CustomAuth_basic_vs_BasicAuth (username password realm : String)
    (parameters : GoMap α) (hempty : parameters.len = 0) :
    ((CustomAuth "basic" username password realm parameters).SameEntries
        (BasicAuth username password realm) ↔ password ≠ "") ∧
    (BasicAuth username "" realm : AuthToken α).Tokens.get "credentials"
      = some (.str "") ∧
    (CustomAuth "basic" username "" realm parameters).Tokens.get "credentials" = none := by
  refine ⟨⟨?_, ?_⟩, ?_, ?_⟩
  · intro hsame hpw
    have hk := hsame "credentials"
    simp only [CustomAuth_tokens, BasicAuth_tokens] at hk
    split_ifs at hk <;> simp_all [GoMap.get, Table.get, Table.lookup]
  · intro hpw k
    simp only [CustomAuth_tokens, BasicAuth_tokens]
    simp [hpw, hempty]
  · simp [BasicAuth_tokens, GoMap.get, Table.get, Table.lookup]
  · simp only [CustomAuth_tokens]
    split_ifs <;> simp_all [GoMap.get, Table.get, Table.lookup]

/-- C9 at concrete calls: the nil parameters map with a non-empty password,
and the allocated empty map with an empty password. -/
theorem C9_CustomAuth_basic_vs_BasicAuth_witness :
    ((GoMap.nil : GoMap Nat).len = 0 ∧
      (((CustomAuth "basic" "neo4j" "secret" "native" .nil : AuthToken Nat).SameEntries
          (BasicAuth "neo4j" "secret" "native") ↔ ("secret" : String) ≠ "") ∧
        (BasicAuth "neo4j" "" "native" : AuthToken Nat).Tokens.get "credentials"
          = some (.str "") ∧
        (CustomAuth "basic" "neo4j" "" "native" .nil : AuthToken Nat).Tokens.get "credentials"
          = none)) ∧
    ((GoMap.ref ⟨[]⟩ : GoMap Nat).len = 0 ∧
      (((CustomAuth "basic" "neo4j" "" "" (.ref ⟨[]⟩) : AuthToken Nat).SameEntries
          (BasicAuth "neo4j" "" "") ↔ ("" : String) ≠ "") ∧
        (BasicAuth "neo4j" "" "" : AuthToken Nat).Tokens.get "credentials"
          = some (.str "") ∧
        (CustomAuth "basic" "neo4j" "" "" (.ref ⟨[]⟩) : AuthToken Nat).Tokens.get "credentials"
          = none)) :=
  ⟨⟨by decide, C9_CustomAuth_basic_vs_BasicAuth "neo4j" "secret" "native" .nil (by decide)⟩,
   ⟨by decide, C9_CustomAuth_basic_vs_BasicAuth "neo4j" "" "" (.ref ⟨[]⟩) (by decide)⟩⟩

end Neo4j
